import Mathlib

/-!
Verification development for the sensor-catalog module of the
`ecowitt_local` integration (`custom_components/ecowitt_local/const.py`).

The module builds two module-level dictionaries:
  * `SENSOR_TYPES`   : sensor key → descriptor (name, unit, device class,
    icon, state class), assembled from a static literal table followed by a
    fixed sequence of `_generate_channel_sensors` passes merged with
    `dict.update` (last write wins per key);
  * `BATTERY_SENSORS`: battery key → (name, sensor_key), assembled the same
    way from a static table and `_generate_battery_sensors` passes.

Python dictionaries are modelled as association lists in insertion order,
with `dict.update` modelled as list append and lookup (`dictLookup`) taking
the LAST binding of a key, which reproduces the last-write-wins overwrite
semantics of `update`.  Name templates such as `"Soil Moisture CH{ch}"`
with `str.format(ch=i)` substitution are modelled as Lean functions
`Nat → String` built by string concatenation at each call site.
-/

/-- Descriptor of one sensor, mirroring the per-key dicts of `SENSOR_TYPES`.
Fields other than `name` are optional because the Python dicts simply omit
them; a generator input dict carries no `name` (default `""`), and the
generator overwrites `name` exactly as `{**sensor_def, "name": name}` does. -/
structure SensorDef where
  name : String := ""
  unit : Option String := none
  device_class : Option String := none
  icon : Option String := none
  state_class : Option String := none
deriving DecidableEq, Repr

/-- Descriptor of one battery sensor, mirroring the per-key dicts of
`BATTERY_SENSORS`: a display name and the key of the parent sensor. -/
structure BatteryDef where
  name : String
  sensor_key : String
deriving DecidableEq, Repr

/-- Helper for `strContains`: does `pat` occur as a contiguous sublist of
the second argument?  (Used to model the Python substring test.) -/
def containsAux (pat : List Char) : List Char → Bool
  | [] => pat.isEmpty
  | c :: rest => pat.isPrefixOf (c :: rest) || containsAux pat rest

/-- Model of the Python membership test `pat in s` on strings:
substring containment. -/
def strContains (s pat : String) : Bool :=
  containsAux pat.data s.data

/-- Model of the Python test `s.endswith(post)`: suffix test on the
character list.  (Defined over `List Char` so that it reduces by
computation inside the kernel.) -/
def strEndsWith (s post : String) : Bool :=
  post.data.isSuffixOf s.data

/-- Model of the Python slice `s[:-1]`: all characters but the last
(the empty string stays empty, as in Python). -/
def strDropLast (s : String) : String :=
  ⟨s.data.dropLast⟩

/-- The key computed for channel `i` of the family with base key `base_key`
inside `_generate_channel_sensors`: a direct transcription of the two
sequential steps of the Python loop body (first the trailing-`f` test, then
the override chain keyed on `"_ch" in base_key` and the three literal
base-key comparisons). -/
def channelKey (base_key : String) (i : Nat) : String :=
  let key :=
    if strEndsWith base_key "f" = false then base_key ++ toString i
    else strDropLast base_key ++ toString i ++ "f"
  if strContains base_key "_ch" = true then base_key ++ toString i
  else if base_key = "humidity" then "humidity" ++ toString i
  else if base_key = "soilmoisture" then "soilmoisture" ++ toString i
  else if base_key = "leafwetness_ch" then "leafwetness_ch" ++ toString i
  else key

/-- Model of `_generate_channel_sensors(base_key, name_template, sensor_def,
max_channels)`: one entry per channel `1..max_channels`, keyed by
`channelKey`, whose descriptor is `sensor_def` with `name` replaced by the
instantiated template. -/
def _generate_channel_sensors (base_key : String) (name_template : Nat → String)
    (sensor_def : SensorDef) (max_channels : Nat) : List (String × SensorDef) :=
  (List.range' 1 max_channels).map fun i =>
    (channelKey base_key i, { sensor_def with name := name_template i })

/-- Model of `_generate_battery_sensors(base_key, name_template,
sensor_key_template, max_channels)`: key `base_key + i` with name and
parent sensor key instantiated from their templates. -/
def _generate_battery_sensors (base_key : String) (name_template : Nat → String)
    (sensor_key_template : Nat → String) (max_channels : Nat) :
    List (String × BatteryDef) :=
  (List.range' 1 max_channels).map fun i =>
    (base_key ++ toString i, { name := name_template i, sensor_key := sensor_key_template i })

/-- Lookup in an association list with last-write-wins semantics: the value
of the LAST pair whose key matches, `none` if no pair matches.  This is the
read behaviour of a Python dict built by sequential inserts/updates. -/
def dictLookup {α : Type} (l : List (String × α)) (k : String) : Option α :=
  l.foldl (fun acc p => if p.1 == k then some p.2 else acc) none

/-- The static literal part of `SENSOR_TYPES` (the dict literal at lines
86-388 of `const.py`), in source order. -/
def SENSOR_TYPES_STATIC : List (String × SensorDef) := [
  ("tempinf", { name := "Indoor Temperature", unit := some "°C", device_class := some "temperature" }),
  ("tempf", { name := "Outdoor Temperature", unit := some "°F", device_class := some "temperature" }),
  ("3", { name := "Feels Like Temperature", unit := some "°C", device_class := some "temperature" }),
  ("5", { name := "Vapor Pressure Deficit", unit := some "kPa", device_class := some "pressure" }),
  ("humidityin", { name := "Indoor Humidity", unit := some "%", device_class := some "humidity" }),
  ("humidity", { name := "Outdoor Humidity", unit := some "%", device_class := some "humidity" }),
  ("baromrelin", { name := "Relative Pressure", unit := some "hPa", device_class := some "atmospheric_pressure" }),
  ("baromabsin", { name := "Absolute Pressure", unit := some "hPa", device_class := some "atmospheric_pressure" }),
  ("windspeedmph", { name := "Wind Speed", unit := some "mph", device_class := some "wind_speed" }),
  ("windspdmph_avg10m", { name := "Wind Speed 10min Avg", unit := some "mph", device_class := some "wind_speed" }),
  ("windgustmph", { name := "Wind Gust", unit := some "mph", device_class := some "wind_speed" }),
  ("maxdailygust", { name := "Max Daily Gust", unit := some "mph", device_class := some "wind_speed" }),
  ("winddir", { name := "Wind Direction", unit := some "°", icon := some "mdi:compass" }),
  ("winddir_avg10m", { name := "Wind Direction 10min Avg", unit := some "°", icon := some "mdi:compass" }),
  ("rainratein", { name := "Rain Rate", unit := some "in/hr", device_class := some "precipitation_intensity", state_class := some "measurement" }),
  ("eventrainin", { name := "Event Rain", unit := some "in", device_class := some "precipitation", state_class := some "total" }),
  ("hourlyrainin", { name := "Hourly Rain", unit := some "in", device_class := some "precipitation", state_class := some "total_increasing" }),
  ("dailyrainin", { name := "Daily Rain", unit := some "in", device_class := some "precipitation", state_class := some "total_increasing" }),
  ("weeklyrainin", { name := "Weekly Rain", unit := some "in", device_class := some "precipitation", state_class := some "total_increasing" }),
  ("monthlyrainin", { name := "Monthly Rain", unit := some "in", device_class := some "precipitation", state_class := some "total_increasing" }),
  ("yearlyrainin", { name := "Yearly Rain", unit := some "in", device_class := some "precipitation", state_class := some "total_increasing" }),
  ("totalrainin", { name := "Total Rain", unit := some "in", device_class := some "precipitation", state_class := some "total_increasing" }),
  ("solarradiation", { name := "Solar Radiation", unit := some "W/m²", device_class := some "irradiance" }),
  ("uv", { name := "UV Index", unit := some "UV Index", icon := some "mdi:weather-sunny-alert" }),
  ("lightning_num", { name := "Lightning Strikes", unit := some "strikes", icon := some "mdi:flash" }),
  ("lightning_time", { name := "Last Lightning", device_class := some "timestamp" }),
  ("lightning", { name := "Lightning Distance", unit := some "km", device_class := some "distance" }),
  ("lightning_mi", { name := "Lightning Distance", unit := some "mi", device_class := some "distance" }),
  ("tf_co2", { name := "CO2 Sensor Temperature", unit := some "°F", device_class := some "temperature" }),
  ("tf_co2c", { name := "CO2 Sensor Temperature", unit := some "°C", device_class := some "temperature" }),
  ("humi_co2", { name := "CO2 Sensor Humidity", unit := some "%", device_class := some "humidity" }),
  ("pm25_co2", { name := "PM2.5", unit := some "µg/m³", device_class := some "pm25" }),
  ("pm25_24h_co2", { name := "PM2.5 24h Avg", unit := some "µg/m³", device_class := some "pm25" }),
  ("pm10_co2", { name := "PM10", unit := some "µg/m³", device_class := some "pm10" }),
  ("pm10_24h_co2", { name := "PM10 24h Avg", unit := some "µg/m³", device_class := some "pm10" }),
  ("co2", { name := "CO2", unit := some "ppm", device_class := some "carbon_dioxide" }),
  ("co2_24h", { name := "CO2 24h Avg", unit := some "ppm", device_class := some "carbon_dioxide" }),
  ("0x02", { name := "Outdoor Temperature", unit := some "°C", device_class := some "temperature" }),
  ("0x03", { name := "Dewpoint Temperature", unit := some "°C", device_class := some "temperature" }),
  ("0x07", { name := "Outdoor Humidity", unit := some "%", device_class := some "humidity" }),
  ("0x0B", { name := "Wind Speed", unit := some "m/s", device_class := some "wind_speed" }),
  ("0x0C", { name := "Wind Gust", unit := some "m/s", device_class := some "wind_speed" }),
  ("0x19", { name := "Max Daily Gust", unit := some "m/s", device_class := some "wind_speed" }),
  ("0x0A", { name := "Wind Direction", unit := some "°", icon := some "mdi:compass" }),
  ("0x6D", { name := "Wind Direction Avg", unit := some "°", icon := some "mdi:compass" }),
  ("0x15", { name := "Solar Radiation", unit := some "W/m²", device_class := some "irradiance" }),
  ("0x17", { name := "UV Index", unit := some "UV Index", icon := some "mdi:weather-sunny-alert" }),
  ("0x0D", { name := "Rain Event", unit := some "mm", device_class := some "precipitation", state_class := some "total" }),
  ("0x0E", { name := "Rain Rate", unit := some "mm/Hr", device_class := some "precipitation_intensity", state_class := some "measurement" }),
  ("0x7C", { name := "Daily Rain", unit := some "mm", device_class := some "precipitation", state_class := some "total_increasing" }),
  ("0x10", { name := "Weekly Rain", unit := some "mm", device_class := some "precipitation", state_class := some "total_increasing" }),
  ("0x11", { name := "Monthly Rain", unit := some "mm", device_class := some "precipitation", state_class := some "total_increasing" }),
  ("0x12", { name := "Yearly Rain", unit := some "mm", device_class := some "precipitation", state_class := some "total_increasing" }),
  ("0x13", { name := "Total Rain", unit := some "mm", device_class := some "precipitation", state_class := some "total_increasing" })]

/-- One sensor channel family, capturing one call to
`SENSOR_TYPES.update(_generate_channel_sensors(...))`. -/
structure SensorFamily where
  base_key : String
  name_template : Nat → String
  sensor_def : SensorDef
  max_channels : Nat

/-- One battery channel family, capturing one call to
`BATTERY_SENSORS.update(_generate_battery_sensors(...))`. -/
structure BatteryFamily where
  base_key : String
  name_template : Nat → String
  sensor_key_template : Nat → String
  max_channels : Nat

/-- The ten `SENSOR_TYPES.update(_generate_channel_sensors(...))` calls of
`const.py` lines 391-436, in source order: tempf, humidity, soilmoisture,
pm25_ch, pm25_avg_24h_ch, leak_ch, leafwetness_ch, tf_ch (°F pass), tf_ch
(°C pass), dewpoint. -/
def sensorFamilies : List SensorFamily := [
  ⟨"tempf", fun ch => "Temperature CH" ++ toString ch, { unit := some "°C", device_class := some "temperature" }, 8⟩,
  ⟨"humidity", fun ch => "Humidity CH" ++ toString ch, { unit := some "%", device_class := some "humidity" }, 8⟩,
  ⟨"soilmoisture", fun ch => "Soil Moisture CH" ++ toString ch, { unit := some "%", device_class := some "moisture" }, 16⟩,
  ⟨"pm25_ch", fun ch => "PM2.5 CH" ++ toString ch, { unit := some "µg/m³", device_class := some "pm25" }, 4⟩,
  ⟨"pm25_avg_24h_ch", fun ch => "PM2.5 24h Avg CH" ++ toString ch, { unit := some "µg/m³", device_class := some "pm25" }, 4⟩,
  ⟨"leak_ch", fun ch => "Leak Sensor CH" ++ toString ch, { device_class := some "moisture" }, 4⟩,
  ⟨"leafwetness_ch", fun ch => "Leaf Wetness CH" ++ toString ch, { unit := some "%", device_class := some "moisture" }, 8⟩,
  ⟨"tf_ch", fun ch => "Soil Temperature CH" ++ toString ch, { unit := some "°F", device_class := some "temperature" }, 8⟩,
  ⟨"tf_ch", fun ch => "Soil Temperature CH" ++ toString ch, { unit := some "°C", device_class := some "temperature" }, 8⟩,
  ⟨"dewpoint", fun ch => "Dewpoint CH" ++ toString ch, { unit := some "°F", device_class := some "temperature" }, 8⟩]

/-- The six `BATTERY_SENSORS.update(_generate_battery_sensors(...))` calls
of `const.py` lines 511-528, in source order. -/
def batteryFamilies : List BatteryFamily := [
  ⟨"soilbatt", fun ch => "Soil Moisture CH" ++ toString ch ++ " Battery", fun ch => "soilmoisture" ++ toString ch, 16⟩,
  ⟨"batt", fun ch => "Temperature/Humidity CH" ++ toString ch ++ " Battery", fun ch => "temp" ++ toString ch ++ "f", 8⟩,
  ⟨"pm25batt", fun ch => "PM2.5 CH" ++ toString ch ++ " Battery", fun ch => "pm25_ch" ++ toString ch, 4⟩,
  ⟨"leakbatt", fun ch => "Leak Sensor CH" ++ toString ch ++ " Battery", fun ch => "leak_ch" ++ toString ch, 4⟩,
  ⟨"tf_batt", fun ch => "Soil Temperature CH" ++ toString ch ++ " Battery", fun ch => "tf_ch" ++ toString ch, 8⟩,
  ⟨"leaf_batt", fun ch => "Leaf Wetness CH" ++ toString ch ++ " Battery", fun ch => "leafwetness_ch" ++ toString ch, 8⟩]

/-- The assembler for the sensor catalog: the static table followed by the
generated entries of each family in order.  `dict.update` is modelled as
append because `dictLookup` takes the last binding of a key. -/
def assembleSensorTypes (static : List (String × SensorDef))
    (fams : List SensorFamily) : List (String × SensorDef) :=
  fams.foldl (fun acc f =>
    acc ++ _generate_channel_sensors f.base_key f.name_template f.sensor_def f.max_channels) static

/-- The assembler for the battery catalog, analogous to
`assembleSensorTypes`. -/
def assembleBatterySensors (static : List (String × BatteryDef))
    (fams : List BatteryFamily) : List (String × BatteryDef) :=
  fams.foldl (fun acc f =>
    acc ++ _generate_battery_sensors f.base_key f.name_template f.sensor_key_template f.max_channels) static

/-- The fully assembled `SENSOR_TYPES` dictionary after all ten update
calls. -/
def SENSOR_TYPES : List (String × SensorDef) :=
  assembleSensorTypes SENSOR_TYPES_STATIC sensorFamilies

/-- The static literal part of `BATTERY_SENSORS` (lines 466-508 of
`const.py`). -/
def BATTERY_SENSORS_STATIC : List (String × BatteryDef) := [
  ("wh57batt", { name := "Lightning Sensor Battery", sensor_key := "lightning" }),
  ("wh40batt", { name := "Rain Sensor Battery", sensor_key := "rainratein" }),
  ("wh68batt", { name := "Weather Station Battery", sensor_key := "tempf" }),
  ("wh25batt", { name := "Indoor Station Battery", sensor_key := "tempinf" }),
  ("wh26batt", { name := "Indoor Sensor Battery", sensor_key := "tempinf" }),
  ("co2_batt", { name := "CO2 Combo Sensor Battery", sensor_key := "co2" }),
  ("wh69batt", { name := "WH69 Weather Station Battery", sensor_key := "0x02" }),
  ("ws90batt", { name := "WS90 Weather Station Battery", sensor_key := "0x02" }),
  ("wh90batt", { name := "WH90 Weather Station Battery", sensor_key := "0x02" }),
  ("wh77batt", { name := "WH77 Multi-Sensor Station Battery", sensor_key := "0x02" })]

/-- The fully assembled `BATTERY_SENSORS` dictionary after all six update
calls. -/
def BATTERY_SENSORS : List (String × BatteryDef) :=
  assembleBatterySensors BATTERY_SENSORS_STATIC batteryFamilies

/-- The read-only lookup surface `lookupSensor` of the spec: consult the
assembled sensor catalog, absent keys give `none`. -/
def lookupSensor (k : String) : Option SensorDef :=
  dictLookup SENSOR_TYPES k

/-- The read-only lookup surface `lookupBattery` of the spec. -/
def lookupBattery (k : String) : Option BatteryDef :=
  dictLookup BATTERY_SENSORS k

/-- The key list of the assembled sensor catalog, in insertion order and
with multiplicity. -/
def sensorKeys : List String := SENSOR_TYPES.map Prod.fst

/-- The key list of the assembled battery catalog. -/
def batteryKeys : List String := BATTERY_SENSORS.map Prod.fst

/-- The eight soil-temperature keys written twice (once per pass). -/
def tfChKeys : List String := (List.range' 1 8).map fun i => "tf_ch" ++ toString i

/-- C10 spec side: the simplified two-case key-formatting rule as the claim
states it — trailing-f rewrite when the base ends in `f` and does not
contain `_ch`, plain concatenation of base key and channel otherwise. -/
def channelKeySpec (base_key : String) (i : Nat) : String :=
  if strEndsWith base_key "f" = true ∧ strContains base_key "_ch" = false then
    strDropLast base_key ++ toString i ++ "f"
  else base_key ++ toString i

/-- Generic fact about `dictLookup`: folding over pairs whose keys all
differ from `k` leaves the accumulator unchanged. -/
theorem dictLookup_foldl_acc {α : Type} (l : List (String × α)) (k : String)
    (acc : Option α) (h : k ∉ l.map Prod.fst) :
    l.foldl (fun acc p => if p.1 == k then some p.2 else acc) acc = acc := by
  induction l generalizing acc with
  | nil => rfl
  | cons p t ih =>
    rw [List.map_cons, List.mem_cons] at h
    push_neg at h
    have hne : (p.1 == k) = false := beq_eq_false_iff_ne.mpr fun e => h.1 e.symm
    simp only [List.foldl_cons]
    simp only [hne]
    simp only [Bool.false_eq_true, if_false]
    exact ih acc h.2

/-- A key absent from the key list of an association list looks up to
`none`. -/
theorem dictLookup_eq_none_of_not_mem {α : Type} (l : List (String × α))
    (k : String) (h : k ∉ l.map Prod.fst) : dictLookup l k = none :=
  dictLookup_foldl_acc l k none h

/-- C1: after full assembly, every key tf_ch1..tf_ch8 maps to the
descriptor of the second (Celsius) soil-temperature pass: name
"Soil Temperature CH i", device class "temperature", unit "°C" and not
"°F" — the °C pass overwrites all eight keys of the °F pass. -/
theorem tf_ch_final_descriptor_is_celsius :
    ((List.range' 1 8).all fun i =>
      lookupSensor ("tf_ch" ++ toString i) ==
        some { name := "Soil Temperature CH" ++ toString i, unit := some "°C",
               device_class := some "temperature" }) = true := by decide

/-- C2: every entry of the fully assembled battery catalog names a parent
sensor key that is present in the fully assembled sensor catalog. -/
theorem battery_parent_keys_present :
    (BATTERY_SENSORS.all fun p => (dictLookup SENSOR_TYPES p.2.sensor_key).isSome) = true := by
  decide

/-- C3: the key produced by the generator for each declared base key —
trailing-f rewrite for "tempf", plain base-plus-channel concatenation for
the "_ch"-marker bases and for "humidity", "soilmoisture", "dewpoint"
(stated for every channel number, hence for 1..channelCount). -/
theorem family_key_rule (i : Nat) :
    channelKey "tempf" i = "temp" ++ toString i ++ "f" ∧
    channelKey "pm25_ch" i = "pm25_ch" ++ toString i ∧
    channelKey "pm25_avg_24h_ch" i = "pm25_avg_24h_ch" ++ toString i ∧
    channelKey "leak_ch" i = "leak_ch" ++ toString i ∧
    channelKey "leafwetness_ch" i = "leafwetness_ch" ++ toString i ∧
    channelKey "tf_ch" i = "tf_ch" ++ toString i ∧
    channelKey "humidity" i = "humidity" ++ toString i ∧
    channelKey "soilmoisture" i = "soilmoisture" ++ toString i ∧
    channelKey "dewpoint" i = "dewpoint" ++ toString i :=
  ⟨rfl, rfl, rfl, rfl, rfl, rfl, rfl, rfl, rfl⟩

/-- C4: completeness of the channel families — for every declared sensor
family and every channel 1..N, the generated key is present in the
assembled sensor catalog with the channel number substituted into the
name; likewise for every battery family in the battery catalog; and the
spec example key "soilmoisture3" carries the full expected descriptor. -/
theorem channel_families_complete :
    ((sensorFamilies.all fun fam => (List.range' 1 fam.max_channels).all fun i =>
        (dictLookup SENSOR_TYPES (channelKey fam.base_key i)).map SensorDef.name ==
          some (fam.name_template i)) = true) ∧
    ((batteryFamilies.all fun fam => (List.range' 1 fam.max_channels).all fun i =>
        (dictLookup BATTERY_SENSORS (fam.base_key ++ toString i)).map BatteryDef.name ==
          some (fam.name_template i)) = true) ∧
    lookupSensor "soilmoisture3" =
      some { name := "Soil Moisture CH3", unit := some "%", device_class := some "moisture" } :=
  ⟨by decide, by decide, by decide⟩

/-- C5 counterexample: the claim assigns state class "total" to every
cumulative resettable rain window, but the code gives "hourlyrainin" the
state class "total_increasing", not "total". -/
theorem hourly_rain_state_class_not_total :
    ¬ ((lookupSensor "hourlyrainin").map SensorDef.state_class = some (some "total")) := by
  decide

/-- C5 as amended: the rain-rate keys have state class "measurement", the
event windows ("eventrainin", "0x0D") have "total", and the hourly, daily,
weekly, monthly and yearly windows as well as the total-rain keys all have
"total_increasing". -/
theorem rain_state_classes :
    (lookupSensor "rainratein").map SensorDef.state_class = some (some "measurement") ∧
    (lookupSensor "0x0E").map SensorDef.state_class = some (some "measurement") ∧
    (lookupSensor "eventrainin").map SensorDef.state_class = some (some "total") ∧
    (lookupSensor "0x0D").map SensorDef.state_class = some (some "total") ∧
    (lookupSensor "hourlyrainin").map SensorDef.state_class = some (some "total_increasing") ∧
    (lookupSensor "dailyrainin").map SensorDef.state_class = some (some "total_increasing") ∧
    (lookupSensor "weeklyrainin").map SensorDef.state_class = some (some "total_increasing") ∧
    (lookupSensor "monthlyrainin").map SensorDef.state_class = some (some "total_increasing") ∧
    (lookupSensor "yearlyrainin").map SensorDef.state_class = some (some "total_increasing") ∧
    (lookupSensor "totalrainin").map SensorDef.state_class = some (some "total_increasing") ∧
    (lookupSensor "0x7C").map SensorDef.state_class = some (some "total_increasing") ∧
    (lookupSensor "0x10").map SensorDef.state_class = some (some "total_increasing") ∧
    (lookupSensor "0x11").map SensorDef.state_class = some (some "total_increasing") ∧
    (lookupSensor "0x12").map SensorDef.state_class = some (some "total_increasing") ∧
    (lookupSensor "0x13").map SensorDef.state_class = some (some "total_increasing") := by
  refine ⟨?_, ?_, ?_, ?_, ?_, ?_, ?_, ?_, ?_, ?_, ?_, ?_, ?_, ?_, ?_⟩ <;> rfl

set_option maxRecDepth 4096 in
/-- C6: the only repeated key of the assembled sensor catalog is the
deliberate soil-temperature override — every key occurs once except
tf_ch1..tf_ch8, which occur exactly twice — and the battery catalog has no
repeated key at all. -/
theorem catalog_keys_unique_except_tf_ch :
    ((sensorKeys.all fun k => sensorKeys.count k == 1 || tfChKeys.contains k) = true) ∧
    ((tfChKeys.all fun k => sensorKeys.count k == 2) = true) ∧
    batteryKeys.Nodup :=
  ⟨by decide, by decide, by decide⟩

/-- C7: assembly is a pure, deterministic function of the hard-coded
static tables and family lists — running the assembler twice over the same
inputs yields catalogs equal key-by-key (every lookup agrees) and
field-by-field (the assembled lists are equal). -/
theorem assembly_deterministic :
    (∀ k : String,
      dictLookup (assembleSensorTypes SENSOR_TYPES_STATIC sensorFamilies) k =
        dictLookup (assembleSensorTypes SENSOR_TYPES_STATIC sensorFamilies) k) ∧
    (∀ k : String,
      dictLookup (assembleBatterySensors BATTERY_SENSORS_STATIC batteryFamilies) k =
        dictLookup (assembleBatterySensors BATTERY_SENSORS_STATIC batteryFamilies) k) ∧
    assembleSensorTypes SENSOR_TYPES_STATIC sensorFamilies =
      assembleSensorTypes SENSOR_TYPES_STATIC sensorFamilies ∧
    assembleBatterySensors BATTERY_SENSORS_STATIC batteryFamilies =
      assembleBatterySensors BATTERY_SENSORS_STATIC batteryFamilies :=
  ⟨fun _ => rfl, fun _ => rfl, rfl, rfl⟩

/-- C8: looking up a key absent from a catalog returns `none` (an absent
result, never an error), for both catalogs; lookups are pure reads and
cannot modify the catalogs. -/
theorem lookup_unknown_key_absent (k : String) :
    (k ∉ sensorKeys → lookupSensor k = none) ∧
    (k ∉ batteryKeys → lookupBattery k = none) :=
  ⟨fun h => dictLookup_eq_none_of_not_mem SENSOR_TYPES k h,
   fun h => dictLookup_eq_none_of_not_mem BATTERY_SENSORS k h⟩

/-- C8 witness: the spec example key "unknown_key_xyz" is absent from both
catalogs and both lookups return `none`. -/
theorem lookup_unknown_key_absent_witness :
    lookupSensor "unknown_key_xyz" = none ∧ lookupBattery "unknown_key_xyz" = none :=
  ⟨(lookup_unknown_key_absent "unknown_key_xyz").1 (by decide),
   (lookup_unknown_key_absent "unknown_key_xyz").2 (by decide)⟩

/-- C9: the key sets of the two assembled catalogs are disjoint — no
battery key occurs among the sensor keys — and hence for every key at most
one of the two lookups returns a present result. -/
theorem sensor_battery_keys_disjoint :
    ((batteryKeys.all fun k => !(sensorKeys.contains k)) = true) ∧
    (∀ k : String, (lookupSensor k).isSome = true → lookupBattery k = none) := by
  constructor
  · decide
  · intro k hk
    by_cases hmem : k ∈ batteryKeys
    · exfalso
      have hdisj : (batteryKeys.all fun k => !(sensorKeys.contains k)) = true := by decide
      have h1 := List.all_eq_true.mp hdisj k hmem
      have h2 : k ∉ sensorKeys := by simpa using h1
      have h3 : lookupSensor k = none := dictLookup_eq_none_of_not_mem SENSOR_TYPES k h2
      rw [h3] at hk
      exact Bool.false_ne_true hk
    · exact dictLookup_eq_none_of_not_mem BATTERY_SENSORS k hmem

/-- C9 witness: the sensor key "tempinf" is present in the sensor catalog
and therefore absent from the battery catalog. -/
theorem sensor_battery_keys_disjoint_witness :
    lookupBattery "tempinf" = none :=
  sensor_battery_keys_disjoint.2 "tempinf" (by decide)

/-- C10: for every base key and channel, the key computed by
`_generate_channel_sensors` equals the simplified two-case rule; the
explicit humidity, soilmoisture and leafwetness_ch branches never change
the result. -/
theorem channelKey_matches_two_case_rule (b : String) (i : Nat) :
    channelKey b i = channelKeySpec b i := by
  by_cases h1 : b = "humidity"
  · subst h1; rfl
  · by_cases h2 : b = "soilmoisture"
    · subst h2; rfl
    · by_cases h3 : b = "leafwetness_ch"
      · subst h3; rfl
      · unfold channelKey channelKeySpec
        cases hch : strContains b "_ch" <;> cases hf : strEndsWith b "f" <;>
          simp [hch, hf, h1, h2, h3]
